import Mathlib

/-!
Verification of the PDF compressor's target-size search policy, invoker
wrapper and batch orchestrator (`pdf_compressor.py`), as a shallow embedding.

Modelling choices:
* A filesystem path is a pair (directory, file name); only the operations
  the program uses (`parent`, `name`, `stem`, `suffix`, join) are modelled.
* The filesystem is an association list from paths to file sizes (bytes).
  The program only ever observes existence and byte size of files.
* Each external effectful compression call (a Ghostscript subprocess run in
  `compress_with_ghostscript` / `compress_with_ghostscript_advanced`, or a
  pypdf rewrite in `compress_with_pypdf`) is resolved by an environment
  oracle `env : Nat -> EngineResult`, indexed by the number of such calls
  made so far (execution is strictly sequential, so the call index
  determines the call).  `EngineResult.ok s` models exit code 0 with a
  complete file of `s` bytes written at the requested output path;
  `EngineResult.fail leftover` models a nonzero exit code or a raised,
  internally-caught exception, where `leftover = some s` means the failed
  external process left a partial file of `s` bytes at the output path and
  `leftover = none` means it left nothing.  The Python wrappers return
  only the boolean and never remove files, which the embedding mirrors.
* The state also records the trace of invocations (kind, parameters,
  output path), so that theorems can speak about which configurations
  were invoked and in which order.
* The only in-process exception that can escape `compress_file` in this
  model is the ZeroDivisionError raised at the compression-ratio
  computation when the input file has size 0 (Python line
  `compression_ratio = (1 - compressed_size / original_size) * 100`).
  Filesystem races (stat/rename/unlink failures) are not modelled.
-/

namespace PDFC

/-- A filesystem path, as the program uses it: a parent directory (kept
abstract as a string) and a final component name. -/
structure PyPath where
  dir : String
  name : String
deriving DecidableEq

/-- Index of the last '.' in a list of characters, if any. -/
def lastDotIdx : List Char → Option Nat
  | [] => none
  | c :: cs =>
    match lastDotIdx cs with
    | some i => some (i + 1)
    | none => if c = '.' then some 0 else none

/-- Python `pathlib.PurePath.suffix` of a file name: the substring from the
last dot on, provided that dot is neither the first nor the last
character; otherwise the empty string. -/
def pySuffix (name : String) : String :=
  match lastDotIdx name.data with
  | some i => if 0 < i ∧ i + 1 < name.data.length then ⟨name.data.drop i⟩ else ""
  | none => ""

/-- Python `pathlib.PurePath.stem` of a file name: the file name with its
suffix (as computed by `pySuffix`) removed. -/
def pyStem (name : String) : String :=
  match lastDotIdx name.data with
  | some i => if 0 < i ∧ i + 1 < name.data.length then ⟨name.data.take i⟩ else name
  | none => name

/-- Python `str.lower`, restricted to the ASCII range (which is all the
program compares: `input_path.suffix.lower() == '.pdf'`). -/
def pyLower (s : String) : String := ⟨s.data.map Char.toLower⟩

/-- The filesystem: an association list mapping a path to the byte size of
the file stored there.  Absence from the list models a missing file. -/
abbrev FSys := List (PyPath × Nat)

/-- Look up the size of the file at path `p` (models `Path.exists` /
`Path.stat().st_size`). -/
def lookupF (p : PyPath) : FSys → Option Nat
  | [] => none
  | (q, s) :: rest => if q = p then some s else lookupF p rest

/-- Remove the file at path `p` (models `Path.unlink(missing_ok=True)`). -/
def eraseF (p : PyPath) : FSys → FSys
  | [] => []
  | (q, s) :: rest => if q = p then eraseF p rest else (q, s) :: eraseF p rest

/-- Create or overwrite the file at path `p` with size `s`. -/
def insertF (p : PyPath) (s : Nat) (fs : FSys) : FSys :=
  (p, s) :: eraseF p fs

/-- Result of one external compression call, as decided by the
environment: exit code 0 with a complete output of a given size, or a
failure that may leave a partial file of a given size at the output path. -/
inductive EngineResult where
  | ok (size : Nat)
  | fail (leftover : Option Nat)
deriving DecidableEq

/-- The compression level selected by `--quality`. -/
inductive CompressionLevel where
  | low | medium | high | maximum
deriving DecidableEq

/-- The `gs_settings` table of `compress_with_ghostscript` (the `.get`
default '/printer' is unreachable because the constructor validates the
level against `COMPRESSION_LEVELS`). -/
def gs_settings : CompressionLevel → String
  | .low => "/ebook"
  | .medium => "/printer"
  | .high => "/prepress"
  | .maximum => "/screen"

/-- The kind and parameters of one external invocation, for the trace. -/
inductive CallKind where
  | gs (preset : String)
  | gsAdv (preset : String) (dpi : Nat) (jpegQ : Nat)
  | pypdf
deriving DecidableEq

/-- One recorded external invocation: its kind and its output path. -/
structure EngineCall where
  kind : CallKind
  output : PyPath
deriving DecidableEq

/-- The mutable world: the filesystem and the trace of invocations made
so far (the trace length indexes the environment oracle). -/
structure St where
  fs : FSys
  calls : List EngineCall
deriving DecidableEq

/-- Run one external compression call: consult the oracle at the current
call index, record the call, and update the filesystem exactly as the
Python wrappers observe it (a complete file on success, possibly a partial
file on failure, and never any removal). -/
def invoke (env : Nat → EngineResult) (c : EngineCall) (st : St) : Bool × St :=
  match env st.calls.length with
  | .ok s => (true, ⟨insertF c.output s st.fs, st.calls ++ [c]⟩)
  | .fail none => (false, ⟨st.fs, st.calls ++ [c]⟩)
  | .fail (some s) => (false, ⟨insertF c.output s st.fs, st.calls ++ [c]⟩)

/-- `PDFCompressor.compress_with_ghostscript`: build the preset from the
override or from `gs_settings`, run Ghostscript, and return its success
boolean.  On failure nothing is cleaned up. -/
def compress_with_ghostscript (env : Nat → EngineResult) (level : CompressionLevel)
    (override_quality : Option String) (input output : PyPath) (st : St) : Bool × St :=
  let gs_quality := match override_quality with
    | some q => q
    | none => gs_settings level
  invoke env ⟨.gs gs_quality, output⟩ st

/-- `PDFCompressor.compress_with_ghostscript_advanced`: run Ghostscript
with an explicit preset, image DPI and JPEG quality, and return its
success boolean.  On failure nothing is cleaned up. -/
def compress_with_ghostscript_advanced (env : Nat → EngineResult)
    (input output : PyPath) (preset : String) (image_dpi jpeg_quality : Nat)
    (st : St) : Bool × St :=
  invoke env ⟨.gsAdv preset image_dpi jpeg_quality, output⟩ st

/-- `PDFCompressor.compress_with_pypdf`: rewrite pages through the pypdf
library, returning a success boolean; a failure may leave a partially
written output file behind. -/
def compress_with_pypdf (env : Nat → EngineResult) (input output : PyPath)
    (st : St) : Bool × St :=
  invoke env ⟨.pypdf, output⟩ st

/-- One entry of the quality-configuration table in `compress_file`. -/
structure GSConfig where
  preset : String
  desc : String
  dpi : Nat
  jpeg_q : Nat
deriving DecidableEq

/-- The `configs` table of `compress_file` (line 339), in source order. -/
def configs : List GSConfig :=
  [⟨"/prepress", "high quality", 300, 90⟩,
   ⟨"/printer", "good quality", 200, 80⟩,
   ⟨"/printer", "balanced", 150, 75⟩,
   ⟨"/ebook", "compact", 150, 70⟩,
   ⟨"/screen", "minimal", 100, 60⟩]

/-- The temporary candidate path used by the target-size search:
`output_path.parent / f"temp_{output_path.name}"`. -/
def tempPathFor (output : PyPath) : PyPath :=
  ⟨output.dir, "temp_" ++ output.name⟩

/-- The `for preset, desc, dpi, jpeg_q in configs:` loop of
`compress_file` (lines 347-365): invoke the advanced Ghostscript wrapper
into the temporary path; on success measure the candidate, accept it by
renaming it onto the final path if it is within target (POSIX `rename`
overwrites an existing destination), otherwise unlink it and continue;
on invocation failure continue without touching the filesystem (the
`except` arm, which unlinks, is reachable only from filesystem errors
that this model excludes). -/
def target_search_loop (env : Nat → EngineResult) (target : Int)
    (input output : PyPath) : List GSConfig → St → Bool × St
  | [], st => (false, st)
  | c :: rest, st =>
    let temp := tempPathFor output
    let r := compress_with_ghostscript_advanced env input temp c.preset c.dpi c.jpeg_q st
    if r.1 then
      match lookupF temp r.2.fs with
      | some size =>
        if (size : Int) ≤ target then
          (true, ⟨insertF output size (eraseF temp r.2.fs), r.2.calls⟩)
        else
          target_search_loop env target input output rest ⟨eraseF temp r.2.fs, r.2.calls⟩
      | none => target_search_loop env target input output rest r.2
    else
      target_search_loop env target input output rest r.2

/-- The in-process exception that can escape `compress_file` in this
model: the ZeroDivisionError of the compression-ratio computation. -/
inductive PyErr where
  | zeroDivision
deriving DecidableEq

/-- Output-path resolution of `compress_file` (lines 324-325): an explicit
output path if given, else the input's directory joined with the input's
stem followed by `_compressed.pdf`. -/
def resolve_output (input : PyPath) (explicitOutput : Option PyPath) : PyPath :=
  match explicitOutput with
  | some o => o
  | none => ⟨input.dir, pyStem input.name ++ "_compressed.pdf"⟩

/-- The tail of `compress_file` (lines 383-393): on `success and
output_path.exists()`, measure the output and compute the compression
ratio — which divides by the original size and raises ZeroDivisionError
when it is 0 — then return `(True, output_path)`; otherwise return
`(False, input_path)`. -/
def compress_file_report (original_size : Nat) (input output : PyPath)
    (success : Bool) (st : St) : Except PyErr (Bool × PyPath) × St :=
  if success then
    match lookupF output st.fs with
    | some _ =>
      if original_size = 0 then (.error .zeroDivision, st)
      else (.ok (true, output), st)
    | none => (.ok (false, input), st)
  else (.ok (false, input), st)

/-- The target-size branch of `compress_file` (lines 337-371): run the
configuration loop; if no configuration was accepted, fall back to one
plain Ghostscript invocation with the '/screen' override writing directly
to the final output path. -/
def compress_file_target_path (env : Nat → EngineResult) (level : CompressionLevel)
    (target : Int) (original_size : Nat) (input output : PyPath) (st : St) :
    Except PyErr (Bool × PyPath) × St :=
  let r1 := target_search_loop env target input output configs st
  let r2 :=
    if r1.1 then r1
    else compress_with_ghostscript env level (some "/screen") input output r1.2
  compress_file_report original_size input output r2.1 r2.2

/-- The single-shot branch of `compress_file` (lines 372-381): try plain
Ghostscript with the preset derived from the compression level; only if it
fails, and only when the pypdf library is available, try the library
rewrite. -/
def compress_file_single_shot (env : Nat → EngineResult) (pypdf_available : Bool)
    (level : CompressionLevel) (original_size : Nat) (input output : PyPath)
    (st : St) : Except PyErr (Bool × PyPath) × St :=
  let g := compress_with_ghostscript env level none input output st
  if g.1 then compress_file_report original_size input output true g.2
  else if pypdf_available then
    let p := compress_with_pypdf env input output g.2
    compress_file_report original_size input output p.1 p.2
  else compress_file_report original_size input output false g.2

/-- `PDFCompressor.compress_file`: validate the input (existence, `.pdf`
suffix case-insensitively), resolve the output path, record the original
size, then dispatch on whether a target size was requested. -/
def compress_file (env : Nat → EngineResult) (pypdf_available : Bool)
    (level : CompressionLevel) (target_size_bytes : Option Int)
    (input : PyPath) (explicitOutput : Option PyPath) (st : St) :
    Except PyErr (Bool × PyPath) × St :=
  match lookupF input st.fs with
  | none => (.ok (false, input), st)
  | some original_size =>
    if pyLower (pySuffix input.name) = ".pdf" then
      let output := resolve_output input explicitOutput
      match target_size_bytes with
      | some t => compress_file_target_path env level t original_size input output st
      | none => compress_file_single_shot env pypdf_available level original_size input output st
    else (.ok (false, input), st)

/-- The per-input output-path choice of `compress_batch` (lines 416-420):
`output_dir / f"{input_path.stem}_compressed.pdf"` when an output
directory is given, else `None`. -/
def batch_output_for (output_dir : Option String) (input : PyPath) : Option PyPath :=
  match output_dir with
  | some d => some ⟨d, pyStem input.name ++ "_compressed.pdf"⟩
  | none => none

/-- `PDFCompressor.compress_batch`: process the inputs in order, deriving
each output path from the output directory when one is given; an
exception escaping `compress_file` propagates (there is no per-job
handler inside the batch loop), discarding the collected results. -/
def compress_batch (env : Nat → EngineResult) (pypdf_available : Bool)
    (level : CompressionLevel) (target_size_bytes : Option Int)
    (output_dir : Option String) : List PyPath → St →
    Except St (List (Bool × PyPath × PyPath) × St)
  | [], st => .ok ([], st)
  | input :: rest, st =>
    match compress_file env pypdf_available level target_size_bytes input
        (batch_output_for output_dir input) st with
    | (.error _, st1) => .error st1
    | (.ok (succ, fin), st1) =>
      match compress_batch env pypdf_available level target_size_bytes output_dir rest st1 with
      | .error st2 => .error st2
      | .ok (res, st2) => .ok ((succ, input, fin) :: res, st2)

/-- Exit code of `main`'s batch arm: 1 when any per-file result is a
failure, 0 otherwise. -/
def batch_exit_code (results : List (Bool × PyPath × PyPath)) : Nat :=
  if results.any (fun r => !r.1) then 1 else 0

/-- Truncation of a rational toward zero, as Python `int()` applied to a
float. -/
def truncToInt (q : ℚ) : Int :=
  if q < 0 then -(((-q).num.toNat / (-q).den : Nat) : Int)
  else ((q.num.toNat / q.den : Nat) : Int)

/-- The target-size conversion of `main` (line 607):
`int(args.target_size_mb * 1024 * 1024) if getattr(args, 'target_size_mb', None) else None`.
The guard is Python truthiness of the parsed float, so the value 0.0 —
like an absent option — yields no target.  Finite Python floats are
dyadic rationals, and multiplication by 1024*1024 = 2^20 only shifts the
exponent, so the float computation is exactly the rational one. -/
def target_bytes_of (target_size_mb : Option ℚ) : Option Int :=
  match target_size_mb with
  | none => none
  | some mb => if mb = 0 then none else some (truncToInt (mb * 1024 * 1024))

/-- Decidable equality for `Except` results, so that witnesses can be
checked by evaluation. -/
instance {ε α : Type} [DecidableEq ε] [DecidableEq α] : DecidableEq (Except ε α) :=
  fun x y =>
  match x, y with
  | .error a, .error b => decidable_of_iff (a = b) (by simp)
  | .error _, .ok _ => isFalse (by simp)
  | .ok _, .error _ => isFalse (by simp)
  | .ok a, .ok b => decidable_of_iff (a = b) (by simp)

/-- Whether an invocation result is a successful candidate meeting the
target: exit code 0 and resulting size at most `t`. -/
def acceptsB (r : EngineResult) (t : Int) : Bool :=
  match r with
  | .ok s => decide ((s : Int) ≤ t)
  | .fail _ => false

/-- The trace entry produced by the target-size search for one
configuration. -/
def advCall (output : PyPath) (c : GSConfig) : EngineCall :=
  ⟨.gsAdv c.preset c.dpi c.jpeg_q, tempPathFor output⟩

/-- Input path used by concrete witnesses. -/
def inW : PyPath := ⟨"d", "in.pdf"⟩

/-- Output path used by concrete witnesses. -/
def outW : PyPath := ⟨"d", "out.pdf"⟩

/-- A zero-byte input file, used to exhibit the ZeroDivisionError path. -/
def zeroW : PyPath := ⟨"d", "z.pdf"⟩

/-- A further input path for batch scenarios. -/
def cW : PyPath := ⟨"d", "c.pdf"⟩

/-- Initial state for single-file witnesses: only the 7-byte input file
exists. -/
def stW : St := ⟨[(inW, 7)], []⟩

/-- Initial state with a 999-byte file already present at the final
output path. -/
def stPre : St := ⟨[(inW, 7), (outW, 999)], []⟩

/-- Initial state for the batch counterexample: a 7-byte, a 0-byte and a
7-byte input. -/
def stB : St := ⟨[(inW, 7), (zeroW, 0), (cW, 7)], []⟩

/-- Initial state for the batch witness: two 7-byte inputs. -/
def stB2 : St := ⟨[(inW, 7), (cW, 7)], []⟩

/-- Environment in which every external invocation fails cleanly. -/
def envFail : Nat → EngineResult := fun _ => .fail none

/-- Environment in which every external invocation succeeds with a
5-byte output. -/
def envOk5 : Nat → EngineResult := fun _ => .ok 5

/-- Environment for the C1 witness: the first invocation produces a
1000-byte file (over a 500-byte target), the second a 400-byte file. -/
def envC1 : Nat → EngineResult := fun k => if k = 0 then .ok 1000 else .ok 400

/-- Environment in which every invocation fails leaving a 50-byte
partial file at the requested output path. -/
def envPart50 : Nat → EngineResult := fun _ => .fail (some 50)

/-- Environment for the C3 counterexample: the first configuration fails
leaving a 100-byte partial temporary, the remaining configurations fail
cleanly, and the final fallback succeeds with a 30-byte output. -/
def envC3x : Nat → EngineResult :=
  fun k => if k = 0 then .fail (some 100) else if k = 5 then .ok 30 else .fail none

/-- Environment for the C5 counterexample: all five configurations fail
cleanly and the fallback fails leaving an 80-byte partial file at the
final output path. -/
def envC5x : Nat → EngineResult :=
  fun k => if k = 5 then .fail (some 80) else .fail none

/-- Environment for the C5 witness: all five configurations fail cleanly
and the fallback succeeds with a 900-byte output (above the target). -/
def envC5w : Nat → EngineResult :=
  fun k => if k = 5 then .ok 900 else .fail none

/-- Environment for the C8 witness: the first job's engine invocation
fails cleanly, later invocations succeed with 5-byte outputs. -/
def envC8w : Nat → EngineResult := fun k => if k = 0 then .fail none else .ok 5

/-- Environment for the C9 witness: the engine invocation fails cleanly,
the pypdf fallback succeeds with a 3-byte output. -/
def envC9w : Nat → EngineResult := fun k => if k = 0 then .fail none else .ok 3

/-- Input path for the C10 witness. -/
def fW : PyPath := ⟨"dir", "file.pdf"⟩

/-- Initial state for the C10 witness. -/
def stF : St := ⟨[(fW, 7)], []⟩

theorem lookupF_insertF_self (p : PyPath) (s : Nat) (fs : FSys) :
    lookupF p (insertF p s fs) = some s := by
  simp [insertF, lookupF]

theorem lookupF_eraseF_self (p : PyPath) (fs : FSys) :
    lookupF p (eraseF p fs) = none := by
  induction fs with
  | nil => rfl
  | cons head rest ih =>
    obtain ⟨q, s⟩ := head
    by_cases h : q = p
    · simp [eraseF, h, ih]
    · simp [eraseF, lookupF, h, ih]

theorem lookupF_eraseF_ne {p q : PyPath} (h : q ≠ p) (fs : FSys) :
    lookupF p (eraseF q fs) = lookupF p fs := by
  induction fs with
  | nil => rfl
  | cons head rest ih =>
    obtain ⟨r, s⟩ := head
    by_cases hr : r = q
    · subst hr
      simp [eraseF, lookupF, h, ih]
    · by_cases hp : r = p
      · simp [eraseF, lookupF, hr, hp, Ne.symm h, ih]
      · simp [eraseF, lookupF, hr, hp, ih]

theorem lookupF_insertF_ne {p q : PyPath} (h : q ≠ p) (s : Nat) (fs : FSys) :
    lookupF p (insertF q s fs) = lookupF p fs := by
  simp [insertF, lookupF, h, lookupF_eraseF_ne h]

theorem tempPathFor_ne (o : PyPath) : tempPathFor o ≠ o := by
  intro h
  have hn : "temp_" ++ o.name = o.name := congrArg PyPath.name h
  have hlen : ("temp_" ++ o.name).length = o.name.length := by rw [hn]
  have h5 : ("temp_" : String).length = 5 := rfl
  rw [String.length_append, h5] at hlen
  omega

theorem ne_tempPathFor (o : PyPath) : o ≠ tempPathFor o :=
  fun h => tempPathFor_ne o h.symm

theorem tsl_first_accept (env : Nat → EngineResult) (t : Int) (input output : PyPath)
    (cs : List GSConfig) :
    ∀ (i s : Nat) (st : St), i < cs.length →
    (∀ j, j < i → acceptsB (env (st.calls.length + j)) t = false) →
    env (st.calls.length + i) = .ok s → ((s : Int) ≤ t) →
    (target_search_loop env t input output cs st).1 = true ∧
    lookupF output (target_search_loop env t input output cs st).2.fs = some s ∧
    lookupF (tempPathFor output) (target_search_loop env t input output cs st).2.fs = none ∧
    (target_search_loop env t input output cs st).2.calls
      = st.calls ++ (cs.take (i + 1)).map (advCall output) := by
  induction cs with
  | nil =>
    intro i s st hi _ _ _
    simp at hi
  | cons c rest ih =>
    intro i s st hi hrej hok hle
    cases i with
    | zero =>
      rw [Nat.add_zero] at hok
      simp only [target_search_loop, compress_with_ghostscript_advanced, invoke, hok]
      simp [lookupF_insertF_self, hle, lookupF_insertF_ne (ne_tempPathFor output),
            lookupF_eraseF_self, advCall]
    | succ i' =>
      have h0 : acceptsB (env st.calls.length) t = false := by
        have h := hrej 0 (Nat.succ_pos i')
        rwa [Nat.add_zero] at h
      cases henv : env st.calls.length with
      | ok s0 =>
        have hs0 : ¬ ((s0 : Int) ≤ t) := by
          rw [henv] at h0
          simpa [acceptsB] using h0
        simp only [target_search_loop, compress_with_ghostscript_advanced, invoke, henv]
        simp only [lookupF_insertF_self, if_true, hs0, if_false]
        have hA := ih i' s
          ⟨eraseF (tempPathFor output) (insertF (tempPathFor output) s0 st.fs),
           st.calls ++ [⟨CallKind.gsAdv c.preset c.dpi c.jpeg_q, tempPathFor output⟩]⟩
          (by simpa using hi)
          (by
            intro j hj
            simp only [List.length_append, List.length_cons, List.length_nil]
            rw [show st.calls.length + (0 + 1) + j = st.calls.length + (j + 1) by omega]
            exact hrej (j + 1) (by omega))
          (by
            simp only [List.length_append, List.length_cons, List.length_nil]
            rw [show st.calls.length + (0 + 1) + i' = st.calls.length + (i' + 1) by omega]
            exact hok)
          hle
        refine ⟨hA.1, hA.2.1, hA.2.2.1, ?_⟩
        rw [hA.2.2.2]
        simp [advCall, List.append_assoc]
      | fail leftover =>
        cases leftover with
        | none =>
          simp only [target_search_loop, compress_with_ghostscript_advanced, invoke, henv,
            Bool.false_eq_true, if_false]
          have hA := ih i' s
            ⟨st.fs, st.calls ++ [⟨CallKind.gsAdv c.preset c.dpi c.jpeg_q, tempPathFor output⟩]⟩
            (by simpa using hi)
            (by
              intro j hj
              simp only [List.length_append, List.length_cons, List.length_nil]
              rw [show st.calls.length + (0 + 1) + j = st.calls.length + (j + 1) by omega]
              exact hrej (j + 1) (by omega))
            (by
              simp only [List.length_append, List.length_cons, List.length_nil]
              rw [show st.calls.length + (0 + 1) + i' = st.calls.length + (i' + 1) by omega]
              exact hok)
            hle
          refine ⟨hA.1, hA.2.1, hA.2.2.1, ?_⟩
          rw [hA.2.2.2]
          simp [advCall, List.append_assoc]
        | some s1 =>
          simp only [target_search_loop, compress_with_ghostscript_advanced, invoke, henv,
            Bool.false_eq_true, if_false]
          have hA := ih i' s
            ⟨insertF (tempPathFor output) s1 st.fs,
             st.calls ++ [⟨CallKind.gsAdv c.preset c.dpi c.jpeg_q, tempPathFor output⟩]⟩
            (by simpa using hi)
            (by
              intro j hj
              simp only [List.length_append, List.length_cons, List.length_nil]
              rw [show st.calls.length + (0 + 1) + j = st.calls.length + (j + 1) by omega]
              exact hrej (j + 1) (by omega))
            (by
              simp only [List.length_append, List.length_cons, List.length_nil]
              rw [show st.calls.length + (0 + 1) + i' = st.calls.length + (i' + 1) by omega]
              exact hok)
            hle
          refine ⟨hA.1, hA.2.1, hA.2.2.1, ?_⟩
          rw [hA.2.2.2]
          simp [advCall, List.append_assoc]

theorem tsl_all_reject (env : Nat → EngineResult) (t : Int) (input output : PyPath)
    (cs : List GSConfig) :
    ∀ st : St, (∀ j, j < cs.length → acceptsB (env (st.calls.length + j)) t = false) →
    (target_search_loop env t input output cs st).1 = false ∧
    (target_search_loop env t input output cs st).2.calls
      = st.calls ++ cs.map (advCall output) := by
  induction cs with
  | nil =>
    intro st _
    simp [target_search_loop]
  | cons c rest ih =>
    intro st hrej
    have h0 : acceptsB (env st.calls.length) t = false := by
      have h := hrej 0 (by simp)
      rwa [Nat.add_zero] at h
    have hshift : ∀ (calls1 : List EngineCall), calls1 = st.calls ++
        [⟨CallKind.gsAdv c.preset c.dpi c.jpeg_q, tempPathFor output⟩] →
        ∀ j, j < rest.length → acceptsB (env (calls1.length + j)) t = false := by
      intro calls1 hc j hj
      subst hc
      simp only [List.length_append, List.length_cons, List.length_nil]
      rw [show st.calls.length + (0 + 1) + j = st.calls.length + (j + 1) by omega]
      exact hrej (j + 1) (by simpa using hj)
    cases henv : env st.calls.length with
    | ok s0 =>
      have hs0 : ¬ ((s0 : Int) ≤ t) := by
        rw [henv] at h0
        simpa [acceptsB] using h0
      simp only [target_search_loop, compress_with_ghostscript_advanced, invoke, henv]
      simp only [lookupF_insertF_self, if_true, hs0, if_false]
      have hA := ih ⟨eraseF (tempPathFor output) (insertF (tempPathFor output) s0 st.fs),
        st.calls ++ [⟨CallKind.gsAdv c.preset c.dpi c.jpeg_q, tempPathFor output⟩]⟩
        (hshift _ rfl)
      refine ⟨hA.1, ?_⟩
      rw [hA.2]
      simp [advCall, List.append_assoc]
    | fail leftover =>
      cases leftover with
      | none =>
        simp only [target_search_loop, compress_with_ghostscript_advanced, invoke, henv,
          Bool.false_eq_true, if_false]
        have hA := ih ⟨st.fs,
          st.calls ++ [⟨CallKind.gsAdv c.preset c.dpi c.jpeg_q, tempPathFor output⟩]⟩
          (hshift _ rfl)
        refine ⟨hA.1, ?_⟩
        rw [hA.2]
        simp [advCall, List.append_assoc]
      | some s1 =>
        simp only [target_search_loop, compress_with_ghostscript_advanced, invoke, henv,
          Bool.false_eq_true, if_false]
        have hA := ih ⟨insertF (tempPathFor output) s1 st.fs,
          st.calls ++ [⟨CallKind.gsAdv c.preset c.dpi c.jpeg_q, tempPathFor output⟩]⟩
          (hshift _ rfl)
        refine ⟨hA.1, ?_⟩
        rw [hA.2]
        simp [advCall, List.append_assoc]

theorem tsl_true_output (env : Nat → EngineResult) (t : Int) (input output : PyPath)
    (cs : List GSConfig) :
    ∀ st : St, (target_search_loop env t input output cs st).1 = true →
    ∃ s, lookupF output (target_search_loop env t input output cs st).2.fs = some s := by
  induction cs with
  | nil =>
    intro st h
    simp [target_search_loop] at h
  | cons c rest ih =>
    intro st h
    cases henv : env st.calls.length with
    | ok s0 =>
      by_cases hle : (s0 : Int) ≤ t
      · simp only [target_search_loop, compress_with_ghostscript_advanced, invoke, henv,
          lookupF_insertF_self, hle, if_true]
        exact ⟨s0, by simp [lookupF_insertF_self]⟩
      · simp only [target_search_loop, compress_with_ghostscript_advanced, invoke, henv,
          lookupF_insertF_self, hle, if_false] at h ⊢
        exact ih _ h
    | fail leftover =>
      cases leftover with
      | none =>
        simp only [target_search_loop, compress_with_ghostscript_advanced, invoke, henv,
          Bool.false_eq_true, if_false] at h ⊢
        exact ih _ h
      | some s1 =>
        simp only [target_search_loop, compress_with_ghostscript_advanced, invoke, henv,
          Bool.false_eq_true, if_false] at h ⊢
        exact ih _ h

theorem tsl_false_output_none (env : Nat → EngineResult) (t : Int) (input output : PyPath)
    (cs : List GSConfig) (hnp : ∀ k s, env k ≠ .fail (some s)) :
    ∀ st : St, lookupF output st.fs = none →
    (target_search_loop env t input output cs st).1 = false →
    lookupF output (target_search_loop env t input output cs st).2.fs = none := by
  induction cs with
  | nil =>
    intro st habs _
    simpa [target_search_loop] using habs
  | cons c rest ih =>
    intro st habs h
    cases henv : env st.calls.length with
    | ok s0 =>
      by_cases hle : (s0 : Int) ≤ t
      · exfalso
        simp only [target_search_loop, compress_with_ghostscript_advanced, invoke, henv,
          lookupF_insertF_self, hle, if_true] at h
        simp at h
      · simp only [target_search_loop, compress_with_ghostscript_advanced, invoke, henv,
          lookupF_insertF_self, hle, if_false] at h ⊢
        apply ih _ _ h
        rw [lookupF_eraseF_ne (tempPathFor_ne output),
          lookupF_insertF_ne (tempPathFor_ne output)]
        exact habs
    | fail leftover =>
      cases leftover with
      | some s1 => exact absurd henv (hnp _ s1)
      | none =>
        simp only [target_search_loop, compress_with_ghostscript_advanced, invoke, henv,
          Bool.false_eq_true, if_false] at h ⊢
        exact ih _ habs h

theorem tsl_temp_none (env : Nat → EngineResult) (t : Int) (input output : PyPath)
    (cs : List GSConfig) (hnp : ∀ k s, env k ≠ .fail (some s)) :
    ∀ st : St, lookupF (tempPathFor output) st.fs = none →
    lookupF (tempPathFor output) (target_search_loop env t input output cs st).2.fs = none := by
  induction cs with
  | nil =>
    intro st habs
    simpa [target_search_loop] using habs
  | cons c rest ih =>
    intro st habs
    cases henv : env st.calls.length with
    | ok s0 =>
      by_cases hle : (s0 : Int) ≤ t
      · simp only [target_search_loop, compress_with_ghostscript_advanced, invoke, henv,
          lookupF_insertF_self, hle, if_true]
        rw [lookupF_insertF_ne (ne_tempPathFor output), lookupF_eraseF_self]
      · simp only [target_search_loop, compress_with_ghostscript_advanced, invoke, henv,
          lookupF_insertF_self, hle, if_false]
        exact ih _ (by rw [lookupF_eraseF_self])
    | fail leftover =>
      cases leftover with
      | some s1 => exact absurd henv (hnp _ s1)
      | none =>
        simp only [target_search_loop, compress_with_ghostscript_advanced, invoke, henv,
          Bool.false_eq_true, if_false]
        exact ih _ habs

theorem compress_file_target_eq (env : Nat → EngineResult) (avail : Bool)
    (level : CompressionLevel) (t : Int) (input : PyPath) (expl : Option PyPath)
    (st : St) (m : Nat) (hin : lookupF input st.fs = some m)
    (hpdf : pyLower (pySuffix input.name) = ".pdf") :
    compress_file env avail level (some t) input expl st =
      compress_file_target_path env level t m input (resolve_output input expl) st := by
  simp [compress_file, hin, hpdf]

theorem compress_file_single_eq (env : Nat → EngineResult) (avail : Bool)
    (level : CompressionLevel) (input : PyPath) (expl : Option PyPath)
    (st : St) (m : Nat) (hin : lookupF input st.fs = some m)
    (hpdf : pyLower (pySuffix input.name) = ".pdf") :
    compress_file env avail level none input expl st =
      compress_file_single_shot env avail level m input (resolve_output input expl) st := by
  simp [compress_file, hin, hpdf]

/-- Claim C1: in the target-size search, the first configuration in table
order whose successfully produced candidate file has size at most the
target is accepted: its temporary file is renamed onto the final output
path (which afterwards holds exactly that candidate's size, the temporary
being gone), the outcome is success, and no configuration later in the
table is invoked — the invocation trace extends by exactly the first
`i + 1` configuration invocations and nothing else. -/
theorem C1_first_fit_config_accepted
    (env : Nat → EngineResult) (avail : Bool) (level : CompressionLevel) (t : Int)
    (input : PyPath) (expl : Option PyPath) (st : St) (m i s : Nat)
    (hin : lookupF input st.fs = some m) (hm : m ≠ 0)
    (hpdf : pyLower (pySuffix input.name) = ".pdf")
    (hi : i < configs.length)
    (hrej : ∀ j, j < i → acceptsB (env (st.calls.length + j)) t = false)
    (hok : env (st.calls.length + i) = .ok s) (hle : (s : Int) ≤ t) :
    (compress_file env avail level (some t) input expl st).1
        = .ok (true, resolve_output input expl) ∧
    lookupF (resolve_output input expl)
        (compress_file env avail level (some t) input expl st).2.fs = some s ∧
    lookupF (tempPathFor (resolve_output input expl))
        (compress_file env avail level (some t) input expl st).2.fs = none ∧
    (compress_file env avail level (some t) input expl st).2.calls
        = st.calls ++ (configs.take (i + 1)).map (advCall (resolve_output input expl)) := by
  have hd := compress_file_target_eq env avail level t input expl st m hin hpdf
  set output := resolve_output input expl with houtput
  have hL := tsl_first_accept env t input output configs i s st hi hrej hok hle
  have hmain : compress_file env avail level (some t) input expl st
      = (.ok (true, output), (target_search_loop env t input output configs st).2) := by
    rw [hd]
    simp only [compress_file_target_path, hL.1, if_true]
    simp only [compress_file_report, hL.2.1, hm, if_false, if_true]
  rw [hmain]
  exact ⟨rfl, hL.2.1, hL.2.2.1, hL.2.2.2⟩

/-- Witness for C1 at a concrete input: with a 500-byte target, the
second configuration's 400-byte candidate is accepted and only two
configurations are invoked. -/
theorem C1_witness :
    (compress_file envC1 true CompressionLevel.medium (some 500) inW (some outW) stW).1
        = .ok (true, resolve_output inW (some outW)) ∧
    lookupF (resolve_output inW (some outW))
        (compress_file envC1 true CompressionLevel.medium (some 500) inW (some outW) stW).2.fs
        = some 400 ∧
    lookupF (tempPathFor (resolve_output inW (some outW)))
        (compress_file envC1 true CompressionLevel.medium (some 500) inW (some outW) stW).2.fs
        = none ∧
    (compress_file envC1 true CompressionLevel.medium (some 500) inW (some outW) stW).2.calls
        = stW.calls ++ (configs.take 2).map (advCall (resolve_output inW (some outW))) :=
  C1_first_fit_config_accepted envC1 true .medium 500 inW (some outW) stW 7 1 400
    rfl (by decide) rfl (by decide) (by decide) rfl (by decide)

theorem invoke_calls (env : Nat → EngineResult) (c : EngineCall) (st : St) :
    (invoke env c st).2.calls = st.calls ++ [c] := by
  cases henv : env st.calls.length with
  | ok s => simp [invoke, henv]
  | fail lo => cases lo <;> simp [invoke, henv]

theorem compress_file_report_snd (m : Nat) (input output : PyPath) (succ : Bool) (st : St) :
    (compress_file_report m input output succ st).2 = st := by
  cases succ with
  | false => simp [compress_file_report]
  | true =>
    cases hl : lookupF output st.fs with
    | none => simp [compress_file_report, hl]
    | some s =>
      by_cases hm0 : m = 0 <;> simp [compress_file_report, hl, hm0]

/-- Claim C5 (amended): if no configuration in the table yields a
candidate of size at most the target, the search performs exactly one
further invocation, with the fixed '/screen' preset through the plain
Ghostscript wrapper, writing directly to the final output path; if that
invocation succeeds the outcome is success regardless of the resulting
size (even when it exceeds the target); if it fails the outcome is
failure — though the code removes nothing, so a partial file written by
the failed fallback invocation (or a pre-existing file) can remain at the
final output path. -/
theorem C5_fallback_screen
    (env : Nat → EngineResult) (avail : Bool) (level : CompressionLevel) (t : Int)
    (input : PyPath) (expl : Option PyPath) (st : St) (m : Nat)
    (hin : lookupF input st.fs = some m) (hm : m ≠ 0)
    (hpdf : pyLower (pySuffix input.name) = ".pdf")
    (hrej : ∀ j, j < configs.length → acceptsB (env (st.calls.length + j)) t = false) :
    (compress_file env avail level (some t) input expl st).2.calls
        = st.calls ++ configs.map (advCall (resolve_output input expl))
            ++ [⟨.gs "/screen", resolve_output input expl⟩] ∧
    (∀ s, env (st.calls.length + configs.length) = .ok s →
      (compress_file env avail level (some t) input expl st).1
          = .ok (true, resolve_output input expl) ∧
      lookupF (resolve_output input expl)
          (compress_file env avail level (some t) input expl st).2.fs = some s) ∧
    (∀ lo, env (st.calls.length + configs.length) = .fail lo →
      (compress_file env avail level (some t) input expl st).1 = .ok (false, input)) := by
  have hd := compress_file_target_eq env avail level t input expl st m hin hpdf
  set output := resolve_output input expl with houtput
  have hL := tsl_all_reject env t input output configs st hrej
  have hlen : (target_search_loop env t input output configs st).2.calls.length
      = st.calls.length + configs.length := by
    rw [hL.2]
    simp
  have hmain : compress_file env avail level (some t) input expl st
      = compress_file_report m input output
          (invoke env ⟨.gs "/screen", output⟩ (target_search_loop env t input output configs st).2).1
          (invoke env ⟨.gs "/screen", output⟩ (target_search_loop env t input output configs st).2).2 := by
    rw [hd]
    simp only [compress_file_target_path, hL.1, Bool.false_eq_true, if_false,
      compress_with_ghostscript]
  refine ⟨?_, ?_, ?_⟩
  · rw [hmain, compress_file_report_snd, invoke_calls, hL.2]
  · intro s hs
    rw [← hlen] at hs
    rw [hmain]
    simp only [invoke, hs]
    simp [compress_file_report, lookupF_insertF_self, hm]
  · intro lo hlo
    rw [← hlen] at hlo
    rw [hmain]
    cases lo with
    | none =>
      simp only [invoke, hlo]
      simp [compress_file_report]
    | some s1 =>
      simp only [invoke, hlo]
      simp [compress_file_report]

/-- Claim C5 counterexample: with all five configurations failing and the
fallback invocation failing after writing an 80-byte partial file
directly at the final output path, the outcome is failure yet a file is
present at the final output path — refuting "if it fails the outcome is
failure with no output file present". -/
theorem C5_counterexample :
    (compress_file envC5x true CompressionLevel.medium (some 500) inW (some outW) stW).1
        = .ok (false, inW) ∧
    lookupF outW
        (compress_file envC5x true CompressionLevel.medium (some 500) inW (some outW) stW).2.fs
        = some 80 := ⟨rfl, rfl⟩

/-- Witness for C5: with all five configurations rejecting a 500-byte
target and the fallback succeeding at 900 bytes (above target), the
outcome is success with the 900-byte file at the final output path. -/
theorem C5_witness :
    (compress_file envC5w true CompressionLevel.medium (some 500) inW (some outW) stW).1
        = .ok (true, resolve_output inW (some outW)) ∧
    lookupF (resolve_output inW (some outW))
        (compress_file envC5w true CompressionLevel.medium (some 500) inW (some outW) stW).2.fs
        = some 900 :=
  (C5_fallback_screen envC5w true .medium 500 inW (some outW) stW 7
      rfl (by decide) rfl (by decide)).2.1 900 rfl

/-- Claim C2 (amended): after the target-size search returns, if the
outcome reports success a file exists at the final output path,
unconditionally; if it reports failure then — provided no failing engine
invocation leaves a partial file and no file pre-existed at the final
output path (provisos that condition only this failure half) — no file
exists at the final output path.  (The code itself removes nothing on
failure: a partial file written by the failed direct-write fallback, or a
pre-existing file, survives.) -/
theorem C2_final_file_invariant
    (env : Nat → EngineResult) (avail : Bool) (level : CompressionLevel) (t : Int)
    (input : PyPath) (expl : Option PyPath) (st : St) (m : Nat)
    (hin : lookupF input st.fs = some m) (hm : m ≠ 0)
    (hpdf : pyLower (pySuffix input.name) = ".pdf") :
    ((compress_file env avail level (some t) input expl st).1
        = .ok (true, resolve_output input expl) →
      ∃ s, lookupF (resolve_output input expl)
          (compress_file env avail level (some t) input expl st).2.fs = some s) ∧
    ((∀ k s, env k ≠ .fail (some s)) →
      lookupF (resolve_output input expl) st.fs = none →
      ∀ p, (compress_file env avail level (some t) input expl st).1 = .ok (false, p) →
      lookupF (resolve_output input expl)
          (compress_file env avail level (some t) input expl st).2.fs = none) := by
  have hd := compress_file_target_eq env avail level t input expl st m hin hpdf
  set output := resolve_output input expl with houtput
  cases hloop : (target_search_loop env t input output configs st).1 with
  | true =>
    obtain ⟨s, hs⟩ := tsl_true_output env t input output configs st hloop
    have hmain : compress_file env avail level (some t) input expl st
        = (.ok (true, output), (target_search_loop env t input output configs st).2) := by
      rw [hd]
      simp only [compress_file_target_path, hloop, if_true]
      simp only [compress_file_report, hs, hm, if_false, if_true]
    rw [hmain]
    refine ⟨fun _ => ⟨s, hs⟩, ?_⟩
    intro _ _ p hp
    simp at hp
  | false =>
    have hmain : compress_file env avail level (some t) input expl st
        = compress_file_report m input output
            (invoke env ⟨.gs "/screen", output⟩
              (target_search_loop env t input output configs st).2).1
            (invoke env ⟨.gs "/screen", output⟩
              (target_search_loop env t input output configs st).2).2 := by
      rw [hd]
      simp only [compress_file_target_path, hloop, Bool.false_eq_true, if_false,
        compress_with_ghostscript]
    cases henv : env (target_search_loop env t input output configs st).2.calls.length with
    | ok s2 =>
      rw [hmain]
      simp only [invoke, henv]
      simp only [compress_file_report, lookupF_insertF_self, hm, if_false, if_true]
      refine ⟨fun _ => ⟨s2, by simp [lookupF_insertF_self]⟩, ?_⟩
      intro _ _ p hp
      simp at hp
    | fail lo =>
      cases lo with
      | some s3 =>
        rw [hmain]
        simp only [invoke, henv]
        simp only [compress_file_report, Bool.false_eq_true, if_false]
        refine ⟨?_, ?_⟩
        · intro hcontra
          simp at hcontra
        · intro hnp _ p _
          exact absurd henv (hnp _ s3)
      | none =>
        rw [hmain]
        simp only [invoke, henv]
        simp only [compress_file_report, Bool.false_eq_true, if_false]
        refine ⟨?_, ?_⟩
        · intro hcontra
          simp at hcontra
        · intro hnp habs p _
          exact tsl_false_output_none env t input output configs hnp st habs hloop

/-- Claim C2 counterexample: with a 999-byte file already present at the
final output path and every engine invocation failing, the outcome is
failure while a file still exists at the final output path — refuting
"the outcome reports failure and no file exists at the final output
path". -/
theorem C2_counterexample :
    (compress_file envFail true CompressionLevel.medium (some 500) inW (some outW) stPre).1
        = .ok (false, inW) ∧
    lookupF outW
        (compress_file envFail true CompressionLevel.medium (some 500) inW (some outW) stPre).2.fs
        = some 999 := ⟨rfl, rfl⟩

/-- Witness for C2: with clean failures and no pre-existing output file,
the failed search leaves no file at the final output path. -/
theorem C2_witness :
    lookupF (resolve_output inW (some outW))
        (compress_file envFail true CompressionLevel.medium (some 500) inW (some outW) stW).2.fs
        = none :=
  (C2_final_file_invariant envFail true .medium 500 inW (some outW) stW 7 rfl (by decide)
      rfl).2 (by intro k s h; simp [envFail] at h) rfl inW rfl

/-- Claim C3 (amended): after a call to `compress_file` (with or without
a target size, and whatever the outcome), no file remains at the job's
temporary path — the output name prefixed with `temp_` in the output
directory — provided the job started with no file at that path and no
failing engine invocation leaves a partial file there.  (The code removes
over-target candidates and exception-path temporaries, but a partial
temporary left by an invocation that merely reports failure is not
removed and survives the call.) -/
theorem C3_no_orphaned_temp (env : Nat → EngineResult) (avail : Bool)
    (level : CompressionLevel) (targ : Option Int) (input : PyPath)
    (expl : Option PyPath) (st : St)
    (hnp : ∀ k s, env k ≠ .fail (some s))
    (htemp : lookupF (tempPathFor (resolve_output input expl)) st.fs = none) :
    lookupF (tempPathFor (resolve_output input expl))
        (compress_file env avail level targ input expl st).2.fs = none := by
  set output := resolve_output input expl with houtput
  cases hin : lookupF input st.fs with
  | none => simpa [compress_file, hin] using htemp
  | some m =>
    by_cases hpdf : pyLower (pySuffix input.name) = ".pdf"
    · cases targ with
      | some t =>
        rw [compress_file_target_eq env avail level t input expl st m hin hpdf]
        have hloopT := tsl_temp_none env t input output configs hnp st htemp
        simp only [compress_file_target_path, ← houtput]
        rw [compress_file_report_snd]
        cases hloop : (target_search_loop env t input output configs st).1 with
        | true =>
          simp only [hloop, if_true]
          exact hloopT
        | false =>
          simp only [hloop, Bool.false_eq_true, if_false, compress_with_ghostscript]
          cases henv : env (target_search_loop env t input output configs st).2.calls.length with
          | ok s2 =>
            simp only [invoke, henv]
            rw [lookupF_insertF_ne (ne_tempPathFor output)]
            exact hloopT
          | fail lo =>
            cases lo with
            | some s3 => exact absurd henv (hnp _ s3)
            | none =>
              simp only [invoke, henv]
              exact hloopT
      | none =>
        rw [compress_file_single_eq env avail level input expl st m hin hpdf]
        simp only [compress_file_single_shot, compress_with_ghostscript, compress_with_pypdf,
          ← houtput]
        cases henv : env st.calls.length with
        | ok s1 =>
          simp only [invoke, henv, if_true]
          rw [compress_file_report_snd]
          rw [lookupF_insertF_ne (ne_tempPathFor output)]
          exact htemp
        | fail lo =>
          cases lo with
          | some s3 => exact absurd henv (hnp _ s3)
          | none =>
            simp only [invoke, henv, Bool.false_eq_true, if_false]
            cases avail with
            | false =>
              simp only [Bool.false_eq_true, if_false]
              rw [compress_file_report_snd]
              exact htemp
            | true =>
              simp only [if_true]
              cases henv2 : env (st.calls ++ [(⟨.gs (gs_settings level), output⟩ : EngineCall)]).length with
              | ok s2 =>
                simp only [invoke, henv2]
                rw [compress_file_report_snd]
                rw [lookupF_insertF_ne (ne_tempPathFor output)]
                exact htemp
              | fail lo2 =>
                cases lo2 with
                | some s3 => exact absurd henv2 (hnp _ s3)
                | none =>
                  simp only [invoke, henv2]
                  rw [compress_file_report_snd]
                  exact htemp
    · simpa [compress_file, hin, hpdf] using htemp

/-- Claim C3 counterexample: the first configuration's invocation fails
leaving a 100-byte partial temporary file; it is not discarded before the
next configuration, and after the call returns (successfully, via the
fallback) the temporary is still present — refuting "no temporary file
remains after the call returns". -/
theorem C3_counterexample :
    (compress_file envC3x true CompressionLevel.medium (some 500) inW (some outW) stW).1
        = .ok (true, outW) ∧
    lookupF (tempPathFor outW)
        (compress_file envC3x true CompressionLevel.medium (some 500) inW (some outW) stW).2.fs
        = some 100 := ⟨rfl, rfl⟩

/-- Witness for C3: with clean failures throughout, no temporary remains
after the call. -/
theorem C3_witness :
    lookupF (tempPathFor (resolve_output inW (some outW)))
        (compress_file envFail true CompressionLevel.medium (some 500) inW (some outW) stW).2.fs
        = none :=
  C3_no_orphaned_temp envFail true .medium (some 500) inW (some outW) stW
    (by intro k s h; simp [envFail] at h) rfl

/-- Claim C4 (amended): the advanced Ghostscript invoker reports success
exactly when the external process exits with code 0; it never removes any
file — paths other than the requested output are untouched, a clean
failure leaves the filesystem unchanged, and when the failed external
process wrote a partial file at the output path the invoker returns with
that partial file still present. -/
theorem C4_invoker_failure_no_cleanup (env : Nat → EngineResult)
    (input output : PyPath) (preset : String) (dpi q : Nat) (st : St) :
    ((compress_with_ghostscript_advanced env input output preset dpi q st).1 = true
        ↔ ∃ s, env st.calls.length = .ok s) ∧
    (∀ p, p ≠ output →
      lookupF p (compress_with_ghostscript_advanced env input output preset dpi q st).2.fs
        = lookupF p st.fs) ∧
    (env st.calls.length = .fail none →
      (compress_with_ghostscript_advanced env input output preset dpi q st).2.fs = st.fs) ∧
    (∀ s, env st.calls.length = .fail (some s) →
      (compress_with_ghostscript_advanced env input output preset dpi q st).1 = false ∧
      lookupF output
        (compress_with_ghostscript_advanced env input output preset dpi q st).2.fs = some s) := by
  cases henv : env st.calls.length with
  | ok s0 =>
    refine ⟨?_, ?_, ?_, ?_⟩
    · simp [compress_with_ghostscript_advanced, invoke, henv]
    · intro p hp
      simp only [compress_with_ghostscript_advanced, invoke, henv]
      exact lookupF_insertF_ne (fun h => hp h.symm) _ _
    · intro h
      cases h
    · intro s h
      cases h
  | fail lo =>
    cases lo with
    | none =>
      refine ⟨?_, ?_, ?_, ?_⟩
      · simp [compress_with_ghostscript_advanced, invoke, henv]
      · intro p _
        simp [compress_with_ghostscript_advanced, invoke, henv]
      · intro _
        simp [compress_with_ghostscript_advanced, invoke, henv]
      · intro s h
        cases h
    | some s1 =>
      refine ⟨?_, ?_, ?_, ?_⟩
      · simp [compress_with_ghostscript_advanced, invoke, henv]
      · intro p hp
        simp only [compress_with_ghostscript_advanced, invoke, henv]
        exact lookupF_insertF_ne (fun h => hp h.symm) _ _
      · intro h
        cases h
      · intro s h
        cases h
        simp [compress_with_ghostscript_advanced, invoke, henv, lookupF_insertF_self]

/-- Claim C4 counterexample: an invocation that fails after the external
process wrote a 50-byte partial file returns failure with the partial
file still present at the requested output path — refuting "if the
invocation reports failure then the requested output path does not exist
afterwards". -/
theorem C4_counterexample :
    (compress_with_ghostscript_advanced envPart50 inW outW "/printer" 200 80 stW).1 = false ∧
    lookupF outW
        (compress_with_ghostscript_advanced envPart50 inW outW "/printer" 200 80 stW).2.fs
        = some 50 := ⟨rfl, rfl⟩

/-- Witness for C4: the amended invoker contract applied at a concrete
failing invocation — failure reported, the 50-byte partial present, and
the unrelated input file untouched. -/
theorem C4_witness :
    (compress_with_ghostscript_advanced envPart50 inW outW "/printer" 200 80 stW).1 = false ∧
    lookupF outW
        (compress_with_ghostscript_advanced envPart50 inW outW "/printer" 200 80 stW).2.fs
        = some 50 ∧
    lookupF inW
        (compress_with_ghostscript_advanced envPart50 inW outW "/printer" 200 80 stW).2.fs
        = lookupF inW stW.fs :=
  ⟨((C4_invoker_failure_no_cleanup envPart50 inW outW "/printer" 200 80 stW).2.2.2 50 rfl).1,
   ((C4_invoker_failure_no_cleanup envPart50 inW outW "/printer" 200 80 stW).2.2.2 50 rfl).2,
   (C4_invoker_failure_no_cleanup envPart50 inW outW "/printer" 200 80 stW).2.1 inW (by decide)⟩

/-- Claim C6 (amended): when the target-size-mb option is present with a
nonzero value, the target in bytes is the megabyte value multiplied by
1024*1024 and truncated toward zero, and `compress_file` dispatches to
the target-size search instead of single-shot compression; when the
option is absent — or present with the value 0.0, which the code's
truthiness test treats like absence — no target is set and single-shot
compression is used. -/
theorem C6_target_option_dispatch (mb : ℚ) (hmb : mb ≠ 0)
    (env : Nat → EngineResult) (avail : Bool) (level : CompressionLevel)
    (input : PyPath) (expl : Option PyPath) (st : St) (m : Nat)
    (hin : lookupF input st.fs = some m)
    (hpdf : pyLower (pySuffix input.name) = ".pdf") :
    target_bytes_of (some mb) = some (truncToInt (mb * 1024 * 1024)) ∧
    target_bytes_of none = none ∧
    compress_file env avail level (target_bytes_of (some mb)) input expl st
      = compress_file_target_path env level (truncToInt (mb * 1024 * 1024)) m input
          (resolve_output input expl) st ∧
    compress_file env avail level (target_bytes_of none) input expl st
      = compress_file_single_shot env avail level m input (resolve_output input expl) st := by
  have h1 : target_bytes_of (some mb) = some (truncToInt (mb * 1024 * 1024)) := by
    simp [target_bytes_of, hmb]
  refine ⟨h1, rfl, ?_, ?_⟩
  · rw [h1]
    exact compress_file_target_eq env avail level _ input expl st m hin hpdf
  · exact compress_file_single_eq env avail level input expl st m hin hpdf

/-- Claim C6 counterexample: the option given on the command line with
the value 0.0 is "present", yet the code's truthiness test yields no
target at all (rather than a 0-byte target), so single-shot compression
is used instead of the target-size search. -/
theorem C6_counterexample :
    target_bytes_of (some 0) = none ∧
    target_bytes_of (some 0) ≠ some (truncToInt ((0 : ℚ) * 1024 * 1024)) := by
  refine ⟨by simp [target_bytes_of], by simp [target_bytes_of]⟩

theorem three_halves_ne_zero : (3 / 2 : ℚ) ≠ 0 := by norm_num

/-- Witness for C6: a 1.5-megabyte target converts to 1572864 bytes and
dispatches to the target-size search; an absent option dispatches to
single-shot compression. -/
theorem C6_witness :
    target_bytes_of (some (3 / 2 : ℚ))
        = some (truncToInt ((3 / 2 : ℚ) * 1024 * 1024)) ∧
    target_bytes_of none = none ∧
    compress_file envOk5 true CompressionLevel.medium (target_bytes_of (some (3 / 2 : ℚ)))
        inW (some outW) stW
      = compress_file_target_path envOk5 CompressionLevel.medium
          (truncToInt ((3 / 2 : ℚ) * 1024 * 1024)) 7 inW (resolve_output inW (some outW)) stW ∧
    compress_file envOk5 true CompressionLevel.medium (target_bytes_of none) inW (some outW) stW
      = compress_file_single_shot envOk5 true CompressionLevel.medium 7 inW
          (resolve_output inW (some outW)) stW :=
  C6_target_option_dispatch (3 / 2) three_halves_ne_zero envOk5 true .medium inW (some outW)
    stW 7 rfl rfl

/-- Claim C7: the target-size configuration table is iterated in the
fixed order prepress, printer, printer-balanced, ebook, screen, and for
every adjacent pair the later entry's image DPI and JPEG quality are each
at most the earlier entry's. -/
theorem C7_config_table_monotone :
    configs.map (fun c => (c.preset, c.desc))
      = [("/prepress", "high quality"), ("/printer", "good quality"),
         ("/printer", "balanced"), ("/ebook", "compact"), ("/screen", "minimal")] ∧
    List.Chain' (fun a b => b.dpi ≤ a.dpi ∧ b.jpeg_q ≤ a.jpeg_q) configs :=
  ⟨rfl, by simp [configs, List.chain'_cons]⟩

theorem batch_exit_code_zero_iff (res : List (Bool × PyPath × PyPath)) :
    batch_exit_code res = 0 ↔ ∀ r ∈ res, r.1 = true := by
  by_cases hany : res.any (fun r => !r.1) = true
  · have h1 : batch_exit_code res = 1 := by simp [batch_exit_code, hany]
    rw [h1]
    simp only [List.any_eq_true] at hany
    obtain ⟨r, hr, hb⟩ := hany
    constructor
    · intro h
      omega
    · intro hall
      rw [hall r hr] at hb
      simp at hb
  · have h0 : batch_exit_code res = 0 := by simp [batch_exit_code, hany]
    rw [h0]
    constructor
    · intro _ r hr
      cases hrb : r.1 with
      | true => rfl
      | false => exact absurd (List.any_eq_true.mpr ⟨r, hr, by simp [hrb]⟩) hany
    · intro _
      rfl

/-- Claim C8 (amended): in a batch, a per-file failure reported by
`compress_file` does not prevent the remaining jobs: whenever the batch
loop completes (no job raised), every input appears, in order, in the
per-file results, and the exit code is 0 exactly when every job
succeeded (so any failure yields a non-zero exit).  However, an
unexpected exception raised while processing one job is NOT converted to
a per-file failure: it propagates out of the batch loop (the `.error`
case), abandoning the remaining inputs. -/
theorem C8_batch_partial_failure (env : Nat → EngineResult) (avail : Bool)
    (level : CompressionLevel) (targ : Option Int) (outdir : Option String) :
    ∀ (inputs : List PyPath) (st : St) (res : List (Bool × PyPath × PyPath)) (st' : St),
    compress_batch env avail level targ outdir inputs st = .ok (res, st') →
    res.map (fun r => r.2.1) = inputs ∧
    (batch_exit_code res = 0 ↔ ∀ r ∈ res, r.1 = true) := by
  intro inputs
  induction inputs with
  | nil =>
    intro st res st' h
    simp only [compress_batch, Except.ok.injEq, Prod.mk.injEq] at h
    obtain ⟨h1, _⟩ := h
    subst h1
    exact ⟨rfl, batch_exit_code_zero_iff _⟩
  | cons a rest ih =>
    intro st res st' h
    simp only [compress_batch] at h
    rcases hcf : compress_file env avail level targ a (batch_output_for outdir a) st
      with ⟨r1, st1⟩
    rw [hcf] at h
    cases r1 with
    | error e => simp at h
    | ok pr =>
      obtain ⟨succ, fin⟩ := pr
      dsimp only at h
      rcases hcb : compress_batch env avail level targ outdir rest st1 with stE | pr2
      · rw [hcb] at h
        simp at h
      · obtain ⟨res2, st2⟩ := pr2
        rw [hcb] at h
        simp only [Except.ok.injEq, Prod.mk.injEq] at h
        obtain ⟨hres, _⟩ := h
        have IH := ih st1 res2 st2 hcb
        refine ⟨?_, batch_exit_code_zero_iff _⟩
        rw [← hres]
        simp [IH.1]

/-- Claim C8 counterexample: in a batch of three inputs where the second
is a zero-byte file, the successful engine run on it triggers the
uncaught ZeroDivisionError of the ratio computation, which aborts the
whole batch: only two engine invocations ever happen and the third input
is never attempted — refuting "an unexpected exception ... does not
prevent the remaining jobs from being processed". -/
theorem C8_counterexample :
    compress_batch envOk5 true CompressionLevel.medium none none [inW, zeroW, cW] stB
      = .error ⟨[(⟨"d", "z_compressed.pdf"⟩, 5), (⟨"d", "in_compressed.pdf"⟩, 5),
                 (inW, 7), (zeroW, 0), (cW, 7)],
                [⟨.gs "/printer", ⟨"d", "in_compressed.pdf"⟩⟩,
                 ⟨.gs "/printer", ⟨"d", "z_compressed.pdf"⟩⟩]⟩ := rfl

/-- Witness for C8: a two-input batch whose first job fails and whose
second succeeds: both inputs are attempted and recorded in order, and
the exit code is non-zero because one job failed. -/
theorem C8_witness :
    ([(false, inW, inW), (true, cW, (⟨"d", "c_compressed.pdf"⟩ : PyPath))].map (fun r => r.2.1)
        = [inW, cW]) ∧
    (batch_exit_code [(false, inW, inW), (true, cW, (⟨"d", "c_compressed.pdf"⟩ : PyPath))] = 0
        ↔ ∀ r ∈ [(false, inW, inW), (true, cW, (⟨"d", "c_compressed.pdf"⟩ : PyPath))],
            r.1 = true) :=
  C8_batch_partial_failure envC8w false .medium none none [inW, cW] stB2
    [(false, inW, inW), (true, cW, ⟨"d", "c_compressed.pdf"⟩)]
    ⟨[(⟨"d", "c_compressed.pdf"⟩, 5), (inW, 7), (cW, 7)],
     [⟨.gs "/printer", ⟨"d", "in_compressed.pdf"⟩⟩,
      ⟨.gs "/printer", ⟨"d", "c_compressed.pdf"⟩⟩]⟩ rfl

/-- Claim C9: on the single-shot path (no target size), the engine is
tried first, once, with the preset derived from the compression level;
the library fallback is attempted (once) exactly when that attempt fails
and the library is available; the outcome is success iff the last
attempted path succeeded, so the job fails only when the engine fails
and the fallback is unavailable or also fails. -/
theorem C9_single_shot_order (env : Nat → EngineResult) (avail : Bool)
    (level : CompressionLevel) (input : PyPath) (expl : Option PyPath) (st : St) (m : Nat)
    (hin : lookupF input st.fs = some m) (hm : m ≠ 0)
    (hpdf : pyLower (pySuffix input.name) = ".pdf") :
    (∀ s, env st.calls.length = .ok s →
      (compress_file env avail level none input expl st).1
          = .ok (true, resolve_output input expl) ∧
      (compress_file env avail level none input expl st).2.calls
          = st.calls ++ [⟨.gs (gs_settings level), resolve_output input expl⟩]) ∧
    (∀ lo, env st.calls.length = .fail lo → avail = false →
      (compress_file env avail level none input expl st).1 = .ok (false, input) ∧
      (compress_file env avail level none input expl st).2.calls
          = st.calls ++ [⟨.gs (gs_settings level), resolve_output input expl⟩]) ∧
    (∀ lo, env st.calls.length = .fail lo → avail = true →
      (compress_file env avail level none input expl st).2.calls
          = st.calls ++ [⟨.gs (gs_settings level), resolve_output input expl⟩,
                         ⟨.pypdf, resolve_output input expl⟩] ∧
      (∀ s2, env (st.calls.length + 1) = .ok s2 →
        (compress_file env avail level none input expl st).1
            = .ok (true, resolve_output input expl)) ∧
      (∀ lo2, env (st.calls.length + 1) = .fail lo2 →
        (compress_file env avail level none input expl st).1 = .ok (false, input))) := by
  have hd := compress_file_single_eq env avail level input expl st m hin hpdf
  set output := resolve_output input expl with houtput
  have hidx : ∀ fs1 : FSys,
      ((⟨fs1, st.calls ++ [⟨.gs (gs_settings level), output⟩]⟩ : St)).calls.length
        = st.calls.length + 1 := by
    intro fs1
    simp
  refine ⟨?_, ?_, ?_⟩
  · intro s hs
    rw [hd]
    simp only [compress_file_single_shot, compress_with_ghostscript, invoke, hs, if_true]
    simp [compress_file_report, lookupF_insertF_self, hm]
  · intro lo hlo hav
    subst hav
    rw [hd]
    cases lo with
    | none =>
      simp only [compress_file_single_shot, compress_with_ghostscript, invoke, hlo,
        Bool.false_eq_true, if_false]
      simp [compress_file_report]
    | some s1 =>
      simp only [compress_file_single_shot, compress_with_ghostscript, invoke, hlo,
        Bool.false_eq_true, if_false]
      simp [compress_file_report]
  · intro lo hlo hav
    subst hav
    rw [hd]
    cases lo with
    | none =>
      simp only [compress_file_single_shot, compress_with_ghostscript, invoke, hlo,
        Bool.false_eq_true, if_false, if_true, compress_with_pypdf]
      refine ⟨?_, ?_, ?_⟩
      · rw [compress_file_report_snd]
        cases henv2 : env (st.calls ++ [(⟨.gs (gs_settings level), output⟩ : EngineCall)]).length with
        | ok s2 => simp [henv2]
        | fail lo2 => cases lo2 <;> simp [henv2]
      · intro s2 hs2
        rw [← hidx st.fs] at hs2
        simp only [invoke, hs2]
        simp [compress_file_report, lookupF_insertF_self, hm]
      · intro lo2 hlo2
        rw [← hidx st.fs] at hlo2
        cases lo2 with
        | none =>
          simp only [invoke, hlo2]
          simp [compress_file_report]
        | some s3 =>
          simp only [invoke, hlo2]
          simp [compress_file_report]
    | some s1 =>
      simp only [compress_file_single_shot, compress_with_ghostscript, invoke, hlo,
        Bool.false_eq_true, if_false, if_true, compress_with_pypdf]
      refine ⟨?_, ?_, ?_⟩
      · rw [compress_file_report_snd]
        cases henv2 : env (st.calls ++ [(⟨.gs (gs_settings level), output⟩ : EngineCall)]).length with
        | ok s2 => simp [henv2]
        | fail lo2 => cases lo2 <;> simp [henv2]
      · intro s2 hs2
        rw [← hidx (insertF output s1 st.fs)] at hs2
        simp only [invoke, hs2]
        simp [compress_file_report, lookupF_insertF_self, hm]
      · intro lo2 hlo2
        rw [← hidx (insertF output s1 st.fs)] at hlo2
        cases lo2 with
        | none =>
          simp only [invoke, hlo2]
          simp [compress_file_report]
        | some s3 =>
          simp only [invoke, hlo2]
          simp [compress_file_report]

/-- Witness for C9: the engine invocation fails cleanly, the available
pypdf fallback succeeds: exactly one engine call (with the
'/printer' preset derived from the medium level) followed by exactly one
pypdf call, and the outcome is success. -/
theorem C9_witness :
    (compress_file envC9w true CompressionLevel.medium none inW (some outW) stW).2.calls
        = stW.calls ++ [⟨.gs (gs_settings .medium), resolve_output inW (some outW)⟩,
                        ⟨.pypdf, resolve_output inW (some outW)⟩] ∧
    (compress_file envC9w true CompressionLevel.medium none inW (some outW) stW).1
        = .ok (true, resolve_output inW (some outW)) :=
  ⟨((C9_single_shot_order envC9w true .medium inW (some outW) stW 7 rfl (by decide) rfl).2.2
      none rfl rfl).1,
   ((C9_single_shot_order envC9w true .medium inW (some outW) stW 7 rfl (by decide) rfl).2.2
      none rfl rfl).2.1 3 rfl⟩

/-- Claim C10: when `compress_file` is called with no explicit output
path and no output directory, the output path is the input file's own
directory joined with the input's base name (stem) followed by the fixed
suffix `_compressed.pdf`; a successful run returns exactly that path. -/
theorem C10_default_output_path (env : Nat → EngineResult) (avail : Bool)
    (level : CompressionLevel) (input : PyPath) (st : St) (m s : Nat)
    (hin : lookupF input st.fs = some m) (hm : m ≠ 0)
    (hpdf : pyLower (pySuffix input.name) = ".pdf")
    (hok : env st.calls.length = .ok s) :
    resolve_output input none
        = ⟨input.dir, pyStem input.name ++ "_compressed.pdf"⟩ ∧
    (compress_file env avail level none input none st).1
        = .ok (true, (⟨input.dir, pyStem input.name ++ "_compressed.pdf"⟩ : PyPath)) := by
  refine ⟨rfl, ?_⟩
  rw [compress_file_single_eq env avail level input none st m hin hpdf]
  simp only [compress_file_single_shot, compress_with_ghostscript, invoke, hok, if_true]
  simp [compress_file_report, lookupF_insertF_self, hm, resolve_output]

/-- Witness for C10: a file `file.pdf` in directory `dir` with no
explicit output path yields `dir/file_compressed.pdf`. -/
theorem C10_witness :
    resolve_output fW none = ⟨fW.dir, pyStem fW.name ++ "_compressed.pdf"⟩ ∧
    (compress_file envOk5 true CompressionLevel.medium none fW none stF).1
        = .ok (true, (⟨fW.dir, pyStem fW.name ++ "_compressed.pdf"⟩ : PyPath)) :=
  C10_default_output_path envOk5 true .medium fW stF 7 5 rfl (by decide) rfl rfl

end PDFC
